import Mathlib

/-!
Verification of the tabular-record service core (`app.py`).

The development shallowly embeds the pure core of the service: the field
validator `validate_data`, the record normalizer `transform_record`, the
search / add-row / export request handlers, the analytics engine
`generate_analytics`, and the data-quality scorer `assess_data_quality`.

Embedding conventions:
* Python strings are Lean `String`s; character-class tests (`isdigit`,
  `isalpha`, `\s`, `lower`) are modelled at ASCII granularity, which covers
  every string the service's own fixtures and messages use.
* Python dicts appear in two roles: a candidate record (fixed five keys,
  each possibly absent) is a structure of `Option String` fields; an
  arbitrary raw mapping is an association list looked up by key.
* Python floats are modelled as exact rationals (`ℚ`); `round(x, 1)` is
  round-half-to-even at one decimal, the convention CPython uses.
* Fallible paths (`int(...)` parsing) return `Option`.
-/

namespace MCPServer

/-- ASCII whitespace, the characters `str.strip` removes and `\s` matches. -/
def isPySpace (c : Char) : Bool :=
  c = ' ' || c = '\t' || c = '\n' || c = '\r' || c = Char.ofNat 11 || c = Char.ofNat 12

/-- `str.strip()` on a character list: drop whitespace from both ends. -/
def pyStripList (s : List Char) : List Char :=
  ((s.dropWhile isPySpace).reverse.dropWhile isPySpace).reverse

/-- `str.strip()`. -/
def pyStrip (s : String) : String :=
  String.mk (pyStripList s.toList)

/-- The apostrophe character, admitted by the Name/City character class. -/
def apostrophe : Char := Char.ofNat 39

/-- Characters admitted by the regex `^[a-zA-Z\s\x27-]+$` used for Name and City. -/
def isNameChar (c : Char) : Bool :=
  c.isAlpha || isPySpace c || c = apostrophe || c = '-'

/-- Characters of the local part of the email regex: `[a-zA-Z0-9._%+-]`. -/
def isLocalChar (c : Char) : Bool :=
  c.isAlphanum || c = '.' || c = '_' || c = '%' || c = '+' || c = '-'

/-- Characters of the domain body of the email regex: `[a-zA-Z0-9.-]`. -/
def isDomainChar (c : Char) : Bool :=
  c.isAlphanum || c = '.' || c = '-'

/-- Match of `[a-zA-Z0-9.-]+\.[a-zA-Z]\x7b2,\x7d` against a whole string:
some split has a non-empty domain-character prefix, then a dot, then at
least two letters running to the end. -/
def domainMatch (d : List Char) : Bool :=
  (List.range d.length).any fun i =>
    !(d.take i).isEmpty && (d.take i).all isDomainChar &&
      (match d.drop i with
       | '.' :: tld => decide (2 ≤ tld.length) && tld.all Char.isAlpha
       | _ => false)

/-- Match of the full email regex `^[a-zA-Z0-9._%+-]+@...$` against a whole
string: some split has a non-empty local part, an `@`, and a matching domain. -/
def emailRegexMatch (s : List Char) : Bool :=
  (List.range s.length).any fun i =>
    !(s.take i).isEmpty && (s.take i).all isLocalChar &&
      (match s.drop i with
       | '@' :: d => domainMatch d
       | _ => false)

/-- `str.lower()` on one character, at ASCII granularity. -/
def pyLowerChar (c : Char) : Char :=
  if c.isUpper then Char.ofNat (c.toNat + 32) else c

/-- `str.lower()`. -/
def pyLower (s : String) : String :=
  String.mk (s.toList.map pyLowerChar)

/-- Python's `needle in hay` substring test. -/
def containsSub (needle hay : String) : Bool :=
  hay.toList.tails.any fun t => needle.toList.isPrefixOf t

/-- Digit run as `int(...)` accepts after the sign: digits with single
underscores strictly between digits. -/
def digitsRest : List Char → Bool
  | [] => true
  | '_' :: c :: rest => c.isDigit && digitsRest rest
  | '_' :: [] => false
  | c :: rest => c.isDigit && digitsRest rest

/-- Non-empty digit run, underscores allowed between digits. -/
def digitsBody : List Char → Bool
  | [] => false
  | c :: rest => c.isDigit && digitsRest rest

/-- Numeric value of a digit run (underscores ignored). -/
def digitsVal (s : List Char) : Nat :=
  (s.filter fun c => c ≠ '_').foldl (fun n c => 10 * n + (c.toNat - 48)) 0

/-- Python `int(s)` on a string: strip whitespace, optional sign, digits. -/
def pyInt? (s : String) : Option Int :=
  match pyStripList s.toList with
  | '+' :: rest => if digitsBody rest then some (digitsVal rest) else none
  | '-' :: rest => if digitsBody rest then some (-(digitsVal rest : Int)) else none
  | rest => if digitsBody rest then some (digitsVal rest) else none

/-- A candidate record as submitted to `add_row`: each canonical field may be
absent from the params mapping. -/
structure Candidate where
  Name : Option String
  City : Option String
  Age : Option String
  Email : Option String
  Phone : Option String
deriving DecidableEq

/-- Name block of `validate_data`: required, trimmed length at least 2, and
only letters, whitespace, hyphens and apostrophes. -/
def nameFieldErrors (v : Option String) : List String :=
  let name := pyStrip (v.getD "")
  if name = "" || name.length < 2 then
    ["Name must be at least 2 characters"]
  else if !(name.toList.all isNameChar) then
    ["Name should only contain letters, spaces, hyphens, and apostrophes"]
  else []

/-- City block of `validate_data`: same shape of rule as Name. -/
def cityFieldErrors (v : Option String) : List String :=
  let city := pyStrip (v.getD "")
  if city = "" || city.length < 2 then
    ["City must be at least 2 characters"]
  else if !(city.toList.all isNameChar) then
    ["City should only contain letters, spaces, hyphens, and apostrophes"]
  else []

/-- Age block of `validate_data`: `int(data.get('Age', 0))` (an absent key
parses as the integer default 0), range [1,120], compliance flag below 13. -/
def ageFieldErrors (v : Option String) : List String :=
  match (match v with
         | some s => pyInt? s
         | none => some 0) with
  | none => ["Age must be a valid number"]
  | some age =>
    if age < 1 || age > 120 then ["Age must be between 1 and 120"]
    else if age < 13 then ["Age appears too young for data collection compliance"]
    else []

/-- Email block of `validate_data`: strip, lowercase, required, regex match,
then the disposable-domain substring blacklist. -/
def emailFieldErrors (v : Option String) : List String :=
  let email := pyLower (pyStrip (v.getD ""))
  if email = "" then ["Email address is required"]
  else if !(emailRegexMatch email.toList) then
    ["Please enter a valid email address"]
  else if ["tempmail", "10minute", "guerrilla"].any (fun d => containsSub d email) then
    ["Temporary email addresses are not allowed"]
  else []

/-- The chained `.replace(" ","").replace("-","").replace("(","").replace(")","").replace("+","")`:
every occurrence of each of the five characters is removed, wherever it sits. -/
def phoneStrip (s : String) : String :=
  String.mk (s.toList.filter fun c => !(c = ' ' || c = '-' || c = '(' || c = ')' || c = '+'))

/-- Phone block of `validate_data`: strip separators, then required,
all-digit, and length within [8,15]. -/
def phoneFieldErrors (v : Option String) : List String :=
  let phone := phoneStrip (v.getD "")
  if phone = "" then ["Phone number is required"]
  else if !(phone.toList.all Char.isDigit) then
    ["Phone number should contain only digits"]
  else if phone.length < 8 then ["Phone number must be at least 8 digits"]
  else if phone.length > 15 then ["Phone number seems too long"]
  else []

/-- `validate_data`: the five field blocks run unconditionally, in source
order, each appending its violations to the shared list. -/
def validate_data (data : Candidate) : List String :=
  nameFieldErrors data.Name ++ cityFieldErrors data.City ++ ageFieldErrors data.Age ++
    emailFieldErrors data.Email ++ phoneFieldErrors data.Phone

/-! ### Spec-side phone procedures (claim C4) -/

/-- The phone-stripping procedure exactly as the claim words it: spaces,
hyphens and parentheses are removed wherever they occur, but a plus sign
only when it is the leading character of the value. -/
def claimPhoneStrip (s : String) : String :=
  String.mk
    (match s.toList.filter (fun c => !(c = ' ' || c = '-' || c = '(' || c = ')')) with
     | '+' :: rest => rest
     | other => other)

/-- The claim's phone rule: leading-plus-only stripping, then the non-empty,
all-digit and length-in-[8,15] checks. -/
def claimPhoneRule (v : Option String) : List String :=
  let phone := claimPhoneStrip (v.getD "")
  if phone = "" then ["Phone number is required"]
  else if !(phone.toList.all Char.isDigit) then
    ["Phone number should contain only digits"]
  else if phone.length < 8 then ["Phone number must be at least 8 digits"]
  else if phone.length > 15 then ["Phone number seems too long"]
  else []

/-- The amended phone rule: every occurrence of space, hyphen, parenthesis
and plus sign is removed, wherever it sits in the value, before the
non-empty, all-digit and length checks. -/
def amendedPhoneRule (v : Option String) : List String :=
  let phone := String.mk ((v.getD "").toList.filter fun c => c ∉ ([' ', '-', '(', ')', '+'] : List Char))
  if phone = "" then ["Phone number is required"]
  else if !(phone.toList.all Char.isDigit) then
    ["Phone number should contain only digits"]
  else if phone.length < 8 then ["Phone number must be at least 8 digits"]
  else if phone.length > 15 then ["Phone number seems too long"]
  else []

/-! ### Record normalization (`transform_record`) -/

/-- First present key variant's value in the raw mapping, else empty string
(the inner for/else of `transform_record`). -/
def firstPresent (record : List (String × String)) : List String → String
  | [] => ""
  | k :: ks =>
    match List.lookup k record with
    | some v => v
    | none => firstPresent record ks

/-- The `field_mappings` table: canonical field to its key-case variants, in
precedence order. -/
def field_mappings : List (String × List String) :=
  [("Name", ["name", "Name", "NAME"]),
   ("City", ["city", "City", "CITY"]),
   ("Age", ["age", "Age", "AGE"]),
   ("Email", ["email", "Email", "EMAIL"]),
   ("Phone", ["phone", "Phone", "PHONE"])]

/-- The fifteen key variants `transform_record` recognizes. -/
def recognizedKeys : List String :=
  ["name", "Name", "NAME", "city", "City", "CITY", "age", "Age", "AGE",
   "email", "Email", "EMAIL", "phone", "Phone", "PHONE"]

/-- `transform_record`: builds the canonical mapping field by field. -/
def transform_record (record : List (String × String)) : List (String × String) :=
  field_mappings.map fun fm => (fm.1, firstPresent record fm.2)

/-! ### Normalized records and the request handlers -/

/-- A normalized record: the five canonical fields, always present. -/
structure Record where
  Name : String
  City : String
  Age : String
  Email : String
  Phone : String
deriving DecidableEq

/-- The five canonical field names, in their fixed order. -/
def canonicalFields : List String := ["Name", "City", "Age", "Email", "Phone"]

/-- Dictionary view of a normalized record: lookup succeeds exactly on the
five canonical keys. -/
def recordGet (r : Record) (f : String) : Option String :=
  if f = "Name" then some r.Name
  else if f = "City" then some r.City
  else if f = "Age" then some r.Age
  else if f = "Email" then some r.Email
  else if f = "Phone" then some r.Phone
  else none

/-- Key presence in a string-valued params mapping. -/
def hasParamKey (params : List (String × String)) (k : String) : Bool :=
  params.any fun p => p.1 = k

/-- Outcome of the search handler. -/
inductive SearchOutcome
  | fail (code : Int) (http : Nat)
  | ok (records : List Record)
deriving DecidableEq

/-- The inner match test of `handle_mcp_search_records`: every supplied
(field, value) pair whose field exists on the record must have `value` as a
case-insensitive substring of the record's field value. -/
def recordMatches (params : List (String × String)) (r : Record) : Bool :=
  params.all fun fv =>
    match recordGet r fv.1 with
    | some s => containsSub (pyLower fv.2) (pyLower s)
    | none => true

/-- The filtering loop of `handle_mcp_search_records`: matching records are
appended in store order. -/
def filterMatching (params : List (String × String)) : List Record → List Record
  | [] => []
  | r :: rs =>
    if recordMatches params r then r :: filterMatching params rs
    else filterMatching params rs

/-- `search_records` requires at least one of Name, City, Email in params. -/
def hasSearchKey (params : List (String × String)) : Bool :=
  ["Name", "City", "Email"].any fun k => hasParamKey params k

/-- `handle_mcp_search_records` over a store of normalized records. -/
def handle_mcp_search_records (params : List (String × String)) (store : List Record) :
    SearchOutcome :=
  if !hasSearchKey params then .fail (-32602) 400
  else
    let filtered := filterMatching params store
    if filtered.isEmpty then .fail (-32002) 404
    else .ok filtered

/-- Outcome of the add-row handler. -/
inductive AddRowOutcome
  | fail (code : Int) (http : Nat) (data : List String)
  | success (rows_added : Nat)
deriving DecidableEq

/-- The record the handler appends: `params.get(field, '')` for each field. -/
def recordOfParams (c : Candidate) : Record :=
  ⟨c.Name.getD "", c.City.getD "", c.Age.getD "", c.Email.getD "", c.Phone.getD ""⟩

/-- `handle_mcp_add_row` in demo mode: the outcome together with the
in-memory store after the call. -/
def handle_mcp_add_row (params : Candidate) (store : List Record) :
    AddRowOutcome × List Record :=
  if params.Name.isNone || params.City.isNone then (.fail (-32602) 400 [], store)
  else
    match validate_data params with
    | [] => (.success 1, store ++ [recordOfParams params])
    | e :: es => (.fail (-32001) 400 (e :: es), store)

/-! ### Export formatting -/

/-- `str(...).replace(',', ';')` on one CSV field value. -/
def csvEscape (s : String) : String :=
  String.mk (s.toList.map fun c => if c = ',' then ';' else c)

/-- The five field values of a record, in header order. -/
def recordFields (r : Record) : List String :=
  [r.Name, r.City, r.Age, r.Email, r.Phone]

/-- One CSV row of the envelope exporter: comma-joined escaped fields. -/
def mcpCsvRow (r : Record) : String :=
  String.intercalate "," ((recordFields r).map csvEscape)

/-- CSV payload built by `handle_mcp_export_data`: header line, then the
row loop appending `row + newline` each iteration. -/
def mcp_csv_export (records : List Record) : String :=
  if records.isEmpty then "Name,City,Age,Email,Phone\n"
  else records.foldl (fun acc r => acc ++ mcpCsvRow r ++ "\n")
    (String.intercalate "," canonicalFields ++ "\n")

/-- One CSV row of the REST exporter: each field wrapped in double quotes,
with no other escaping. -/
def restCsvRow (r : Record) : String :=
  String.intercalate "," ((recordFields r).map fun f => "\"" ++ f ++ "\"")

/-- CSV payload built by the REST `export_data` endpoint: header and rows
joined by newlines, with no trailing newline. -/
def rest_csv_export (records : List Record) : String :=
  if records.isEmpty then "Name,City,Age,Email,Phone\n"
  else String.intercalate "\n" (String.intercalate "," canonicalFields :: records.map restCsvRow)

/-- An export payload: serialized CSV text, or the JSON passthrough. -/
inductive ExportPayload
  | csv (data : String)
  | json (records : List Record)
deriving DecidableEq

/-- The result dict of `handle_mcp_export_data`. -/
structure ExportResult where
  format : String
  payload : ExportPayload
  record_count : Nat
deriving DecidableEq

/-- `handle_mcp_export_data`: `params.get('format', 'json').lower()` picks
CSV, anything else falls through to JSON. -/
def handle_mcp_export_data (fmt : Option String) (store : List Record) : ExportResult :=
  if pyLower (fmt.getD "json") = "csv" then ⟨"csv", .csv (mcp_csv_export store), store.length⟩
  else ⟨"json", .json store, store.length⟩

/-- The REST `export_data` endpoint body for `/export/<format>`. -/
def export_data (fmt : String) (store : List Record) : ExportPayload :=
  if pyLower fmt = "csv" then .csv (rest_csv_export store) else .json store

/-- The spec's description of the envelope CSV: the fixed header line and
one row per record, every line newline-terminated, with comma-to-semicolon
replacement of field values the only escaping. -/
def specEnvelopeCsv (records : List Record) : String :=
  String.join
    (("Name,City,Age,Email,Phone" ::
        records.map fun r =>
          String.intercalate ","
            [csvEscape r.Name, csvEscape r.City, csvEscape r.Age,
             csvEscape r.Email, csvEscape r.Phone]).map (· ++ "\n"))

/-- The REST CSV as the amended claim describes it: each field value wrapped
in double quotes with no comma replacement, rows accumulated after the
header with a separating newline and no trailing newline. -/
def specRestCsv (records : List Record) : String :=
  match records with
  | [] => "Name,City,Age,Email,Phone\n"
  | _ =>
    records.foldl
      (fun acc r =>
        acc ++ "\n" ++
          String.intercalate ","
            ["\"" ++ r.Name ++ "\"", "\"" ++ r.City ++ "\"", "\"" ++ r.Age ++ "\"",
             "\"" ++ r.Email ++ "\"", "\"" ++ r.Phone ++ "\""])
      "Name,City,Age,Email,Phone"

/-! ### Data-quality scorer -/

/-- Decimal value of an all-digit string. -/
def decimalVal (s : List Char) : Nat :=
  s.foldl (fun n c => 10 * n + (c.toNat - 48)) 0

/-- Round half to even, CPython's convention for `round`. -/
def roundHalfEven (q : ℚ) : ℤ :=
  if q - ⌊q⌋ < 1 / 2 then ⌊q⌋
  else if 1 / 2 < q - ⌊q⌋ then ⌊q⌋ + 1
  else if 2 ∣ ⌊q⌋ then ⌊q⌋ else ⌊q⌋ + 1

/-- Python `round(q, 1)` on the exact-rational model of a float. -/
def pyRound1 (q : ℚ) : ℚ :=
  (roundHalfEven (q * 10) : ℚ) / 10

/-- One-decimal rendering of a rate, the `:.1f` format directive. -/
def formatRate1 (q : ℚ) : String :=
  let t := roundHalfEven (q * 10)
  (if t < 0 then "-" else "") ++ toString (t.natAbs / 10) ++ "." ++ toString (t.natAbs % 10)

/-- A field counts as present when its value is truthy and trims non-empty
(`record.get(field) and str(record.get(field)).strip()`). -/
def fieldPresent (r : Record) (f : String) : Bool :=
  match recordGet r f with
  | some v => !(v = "") && !(pyStrip v = "")
  | none => false

/-- How many records have the given field present. -/
def fieldPresentCount (data : List Record) (f : String) : Nat :=
  (data.filter fun r => fieldPresent r f).length

/-- How many records have every canonical field present. -/
def completeCount (data : List Record) : Nat :=
  (data.filter fun r => canonicalFields.all fun f => fieldPresent r f).length

/-- The issue list: a low-overall-score issue, then a per-field issue for
every completion rate below 80. -/
def quality_issues (overall : ℚ) (rates : List (String × ℚ)) : List String :=
  (if overall < 70 then ["Low data completeness - consider improving data collection"] else []) ++
    rates.filterMap fun fr =>
      if fr.2 < 80 then
        some (fr.1 ++ " field has low completion rate (" ++ formatRate1 fr.2 ++ "%)")
      else none

/-- `generate_quality_recommendations`: fixed templates from score and rate
thresholds, plus the constant closing recommendation. -/
def generate_quality_recommendations (rates : List (String × ℚ)) (overall : ℚ) : List String :=
  (if 90 ≤ overall then
    ["Excellent data quality! Consider implementing automated data enrichment."]
   else if 70 ≤ overall then
    ["Good data quality. Focus on improving field completion rates."]
   else
    ["Data quality needs improvement. Implement validation and required field checking."]) ++
  (rates.filterMap fun fr =>
    if fr.2 < 60 then
      some ("Critical: " ++ fr.1 ++ " field needs attention - consider making it required")
    else if fr.2 < 80 then
      some ("Moderate: Improve " ++ fr.1 ++ " field completion through better UX")
    else none) ++
  ["Consider implementing real-time validation and data enrichment APIs"]

/-- The two shapes `assess_data_quality` returns: the empty-input dict, and
the full report. -/
inductive QualityReport
  | noData (overall_score : ℚ) (issues : List String)
  | report (overall_score : ℚ) (complete_records : Nat) (total_records : Nat)
      (field_completion_rates : List (String × ℚ)) (issues : List String)
      (recommendations : List String)

/-- `assess_data_quality`. -/
def assess_data_quality (data : List Record) : QualityReport :=
  if data.isEmpty then .noData 0 ["No data available"]
  else
    let total := data.length
    let rates := canonicalFields.map fun f => (f, (fieldPresentCount data f : ℚ) / total * 100)
    let overall : ℚ := (completeCount data : ℚ) / total * 100
    let issues := quality_issues overall rates
    .report (pyRound1 overall) (completeCount data) total
      (rates.map fun fr => (fr.1, pyRound1 fr.2))
      (if issues.isEmpty then ["Data quality looks good!"] else issues)
      (generate_quality_recommendations rates overall)

/-- The `overall_score` field of either report shape. -/
def overall_score_of : QualityReport → ℚ
  | .noData s _ => s
  | .report s _ _ _ _ _ => s

/-! ### Analytics engine -/

/-- Ages used by analytics: records whose Age is a non-empty all-digit
string, converted to numbers (`age_str and str(age_str).isdigit()`). -/
def extractAges (data : List Record) : List Nat :=
  data.filterMap fun r =>
    if !(r.Age.toList.isEmpty) && r.Age.toList.all Char.isDigit then
      some (decimalVal r.Age.toList)
    else none

/-- Non-empty City values, in store order. -/
def nonEmptyCities (data : List Record) : List String :=
  data.filterMap fun r => if r.City = "" then none else some r.City

/-- One step of the city-count loop: bump an existing city's count or append
a new entry (dict insertion order). -/
def bumpCity (acc : List (String × Nat)) (c : String) : List (String × Nat) :=
  if acc.any fun p => p.1 = c then
    acc.map fun p => if p.1 = c then (p.1, p.2 + 1) else p
  else acc ++ [(c, 1)]

/-- The city-count dict, in insertion order. -/
def city_counts (data : List Record) : List (String × Nat) :=
  (nonEmptyCities data).foldl bumpCity []

/-- Top-10 city distribution: stable sort by count descending, first ten
(`insertionSort` here embeds Python's stable `sorted`). -/
def city_distribution (data : List Record) : List (String × Nat) :=
  ((city_counts data).insertionSort fun p q => q.2 ≤ p.2).take 10

/-- The `age_stats` dict of `generate_analytics`; `average` is the exact
rational standing in for the float mean. -/
structure AgeStats where
  average : ℚ
  median : Nat
  min : Nat
  max : Nat
  g18_25 : Nat
  g26_35 : Nat
  g36_45 : Nat
  g46plus : Nat
deriving DecidableEq

/-- Age statistics, `none` standing in for the empty dict when no record
has a usable age. -/
def age_statistics (data : List Record) : Option AgeStats :=
  let ages := extractAges data
  if ages.isEmpty then none
  else
    let sortedAges := ages.insertionSort fun a b => a ≤ b
    some
      { average := (ages.sum : ℚ) / ages.length
        median := sortedAges.getD (ages.length / 2) 0
        min := (ages.min?).getD 0
        max := (ages.max?).getD 0
        g18_25 := (ages.filter fun a => 18 ≤ a && a ≤ 25).length
        g26_35 := (ages.filter fun a => 26 ≤ a && a ≤ 35).length
        g36_45 := (ages.filter fun a => 36 ≤ a && a ≤ 45).length
        g46plus := (ages.filter fun a => 46 ≤ a).length }

/-- The full analytics summary (the `generated_at` timestamp, a wall-clock
read, is outside the model). -/
structure AnalyticsSummary where
  total_records : Nat
  unique_cities : Nat
  city_distribution : List (String × Nat)
  age_statistics : Option AgeStats
  data_completeness : ℚ

/-- `generate_analytics` result: the minimal no-data dict or a summary. -/
inductive AnalyticsResult
  | noData
  | summary (a : AnalyticsSummary)

/-- `generate_analytics`. -/
def generate_analytics (data : List Record) : AnalyticsResult :=
  if data.isEmpty then .noData
  else
    .summary
      { total_records := data.length
        unique_cities := (nonEmptyCities data).dedup.length
        city_distribution := city_distribution data
        age_statistics := age_statistics data
        data_completeness := overall_score_of (assess_data_quality data) }

/-- The age-statistics component of an analytics result. -/
def analyticsAgeStats : AnalyticsResult → Option AgeStats
  | .noData => none
  | .summary a => a.age_statistics

/-! ### The envelope dispatcher -/

/-- A JSON value, as far as the dispatcher inspects one. -/
inductive JVal
  | null
  | bool (b : Bool)
  | num (n : Int)
  | str (s : String)
  | arr (xs : List JVal)
  | obj (kvs : List (String × JVal))

/-- Key presence in a parsed JSON object. -/
def hasKey (req : List (String × JVal)) (k : String) : Bool :=
  req.any fun p => p.1 = k

/-- `dict.get(k)` on a parsed JSON object, `null` standing in for None. -/
def getJ (req : List (String × JVal)) (k : String) : JVal :=
  match req with
  | [] => .null
  | (k2, v) :: rest => if k2 = k then v else getJ rest k

/-- The seven dispatchable method names. -/
def mcpMethods : List String :=
  ["add_row", "get_data", "get_row_count", "search_records",
   "get_analytics", "get_data_quality", "export_data"]

/-- What the dispatcher decides before any handler body runs. -/
inductive DispatchOutcome
  | fail (code : Int) (http : Nat) (id : JVal)
  | routed (method : String) (params : JVal) (id : JVal)

/-- The `mcp_endpoint` dispatch: an empty parsed object is falsy, raises,
and is folded into INTERNAL_ERROR; then the three-key envelope check; then
routing by method name. -/
def mcp_dispatch (req : List (String × JVal)) : DispatchOutcome :=
  if req.isEmpty then .fail (-32603) 500 .null
  else if !(["jsonrpc", "method", "params"].all fun k => hasKey req k) then
    .fail (-32600) 400 (getJ req "id")
  else
    match getJ req "method" with
    | .str m =>
      if mcpMethods.any fun x => x = m then .routed m (getJ req "params") (getJ req "id")
      else .fail (-32601) 404 (getJ req "id")
    | _ => .fail (-32601) 404 (getJ req "id")

/-! ### Spec-side predicates used to state the claims -/

/-- The ages the spec says analytics uses: one number per record whose Age
is a non-empty string of digits. -/
def specAges (data : List Record) : List Nat :=
  data.filterMap fun r =>
    if r.Age.toList ≠ [] ∧ ∀ c ∈ r.Age.toList, c.isDigit = true then
      some (decimalVal r.Age.toList)
    else none

/-- The spec's complete-record count: all five fields non-empty after
trimming. -/
def specCompleteCount (data : List Record) : Nat :=
  data.countP fun r =>
    pyStrip r.Name ≠ "" ∧ pyStrip r.City ≠ "" ∧ pyStrip r.Age ≠ "" ∧
      pyStrip r.Email ≠ "" ∧ pyStrip r.Phone ≠ ""

/-- The spec's match relation for `search_records`: every supplied pair
whose field exists on the record must be a case-insensitive substring hit;
pairs naming absent fields never block a match. -/
def SpecMatch (params : List (String × String)) (r : Record) : Prop :=
  ∀ p ∈ params, ∀ s, recordGet r p.1 = some s →
    containsSub (pyLower p.2) (pyLower s) = true

/-! ## Helper lemmas -/

lemma length_ite_le_one {c : Prop} [Decidable c] {a b : List String}
    (ha : a.length ≤ 1) (hb : b.length ≤ 1) : (if c then a else b).length ≤ 1 := by
  split <;> assumption

lemma nameFieldErrors_len (v : Option String) : (nameFieldErrors v).length ≤ 1 := by
  simp only [nameFieldErrors]
  exact length_ite_le_one (by decide) (length_ite_le_one (by decide) (by decide))

lemma cityFieldErrors_len (v : Option String) : (cityFieldErrors v).length ≤ 1 := by
  simp only [cityFieldErrors]
  exact length_ite_le_one (by decide) (length_ite_le_one (by decide) (by decide))

lemma ageFieldErrors_len (v : Option String) : (ageFieldErrors v).length ≤ 1 := by
  simp only [ageFieldErrors]
  split
  · decide
  · exact length_ite_le_one (by decide) (length_ite_le_one (by decide) (by decide))

lemma emailFieldErrors_len (v : Option String) : (emailFieldErrors v).length ≤ 1 := by
  simp only [emailFieldErrors]
  exact length_ite_le_one (by decide)
    (length_ite_le_one (by decide) (length_ite_le_one (by decide) (by decide)))

lemma phoneFieldErrors_len (v : Option String) : (phoneFieldErrors v).length ≤ 1 := by
  simp only [phoneFieldErrors]
  exact length_ite_le_one (by decide)
    (length_ite_le_one (by decide) (length_ite_le_one (by decide)
      (length_ite_le_one (by decide) (by decide))))

lemma phoneStrip_filter (s : String) :
    phoneStrip s =
      String.mk (s.toList.filter fun c => c ∉ ([' ', '-', '(', ')', '+'] : List Char)) := by
  unfold phoneStrip
  congr 1
  apply List.filter_congr
  intro c _
  simp [List.mem_cons, Bool.and_assoc]

lemma lookup_none (k : String) (m : List (String × String))
    (h : ∀ p ∈ m, p.1 ≠ k) : List.lookup k m = none := by
  induction m with
  | nil => rfl
  | cons p rest ih =>
    obtain ⟨a, b⟩ := p
    have ha : (k == a) = false := by
      simp only [beq_eq_false_iff_ne, ne_eq]
      exact fun e => h (a, b) (by simp) e.symm
    simp only [List.lookup, ha]
    exact ih fun q hq => h q (List.mem_cons_of_mem _ hq)

/-! ## Claims about the field validator -/

/-- Claim C2: `validate_data` evaluates all five field rule groups without
short-circuiting across fields, concatenating their violations in the fixed
order Name, City, Age, Email, Phone; on the candidate Name="A",
City="London", Age="200", Email="bad", Phone="123" it returns exactly the
four messages Name-too-short, Age-out-of-range, Email-invalid and
Phone-too-short, in that order. -/
theorem validate_data_field_order_and_example :
    (∀ c : Candidate, validate_data c =
      nameFieldErrors c.Name ++ cityFieldErrors c.City ++ ageFieldErrors c.Age ++
        emailFieldErrors c.Email ++ phoneFieldErrors c.Phone) ∧
    validate_data ⟨some "A", some "London", some "200", some "bad", some "123"⟩ =
      ["Name must be at least 2 characters", "Age must be between 1 and 120",
       "Please enter a valid email address", "Phone number must be at least 8 digits"] :=
  ⟨fun _ => rfl, by decide⟩

/-- Claim C10: within each field the validator's rules are mutually
exclusive if/elif branches, so every field contributes at most one message
and the whole list has at most five; an age in [1,12] yields only the
compliance message, and an email both malformed and matching a
disposable-domain substring yields only the malformed-email message. -/
theorem validate_data_at_most_one_violation_per_field :
    (∀ c : Candidate,
      (nameFieldErrors c.Name).length ≤ 1 ∧ (cityFieldErrors c.City).length ≤ 1 ∧
      (ageFieldErrors c.Age).length ≤ 1 ∧ (emailFieldErrors c.Email).length ≤ 1 ∧
      (phoneFieldErrors c.Phone).length ≤ 1 ∧ (validate_data c).length ≤ 5) ∧
    ageFieldErrors (some "10") = ["Age appears too young for data collection compliance"] ∧
    emailFieldErrors (some "tempmail") = ["Please enter a valid email address"] := by
  refine ⟨fun c => ⟨nameFieldErrors_len _, cityFieldErrors_len _, ageFieldErrors_len _,
    emailFieldErrors_len _, phoneFieldErrors_len _, ?_⟩, by decide, by decide⟩
  have h1 := nameFieldErrors_len c.Name
  have h2 := cityFieldErrors_len c.City
  have h3 := ageFieldErrors_len c.Age
  have h4 := emailFieldErrors_len c.Email
  have h5 := phoneFieldErrors_len c.Phone
  simp only [validate_data, List.length_append]
  omega

/-- Claim C4, counterexample: the code strips every plus sign, not only a
leading one, so the phone value "1+2345678" passes `validate_data` although
the claim's leading-plus-only procedure flags it as non-digit. -/
theorem phone_plus_claim_counterexample :
    validate_data ⟨some "Alice Smith", some "Paris", some "30", some "a@b.com",
      some "1+2345678"⟩ = [] ∧
    claimPhoneRule (some "1+2345678") = ["Phone number should contain only digits"] := by
  constructor
  · decide
  · decide

/-- Claim C4 as amended: the Phone violations of `validate_data` are
determined by removing every space, hyphen, parenthesis and plus sign,
wherever each occurs in the value, and then requiring the result to be
non-empty, all digits, and of length between 8 and 15 inclusive. -/
theorem validate_data_phone_strips_every_plus :
    ∀ c : Candidate, validate_data c =
      nameFieldErrors c.Name ++ cityFieldErrors c.City ++ ageFieldErrors c.Age ++
        emailFieldErrors c.Email ++ amendedPhoneRule c.Phone := by
  intro c
  unfold validate_data
  have : phoneFieldErrors c.Phone = amendedPhoneRule c.Phone := by
    unfold phoneFieldErrors amendedPhoneRule
    rw [phoneStrip_filter]
  rw [this]

/-! ## Claim about the record normalizer -/

/-- Claim C6: `transform_record` is total and idempotent: its output always
carries exactly the five canonical fields in order, applying it twice
equals applying it once, and a raw mapping with zero recognized keys
normalizes to all five fields empty. -/
theorem transform_record_total_idempotent :
    (∀ m : List (String × String),
      (transform_record m).map Prod.fst = ["Name", "City", "Age", "Email", "Phone"] ∧
      transform_record (transform_record m) = transform_record m) ∧
    ∀ m : List (String × String), (∀ p ∈ m, p.1 ∉ recognizedKeys) →
      transform_record m =
        [("Name", ""), ("City", ""), ("Age", ""), ("Email", ""), ("Phone", "")] := by
  refine ⟨fun m => ⟨rfl, rfl⟩, fun m h => ?_⟩
  have hk : ∀ k, k ∈ recognizedKeys → List.lookup k m = none := fun k hmem =>
    lookup_none k m fun p hp e => h p hp (e ▸ hmem)
  simp [transform_record, field_mappings, firstPresent,
    hk "name" (by decide), hk "Name" (by decide), hk "NAME" (by decide),
    hk "city" (by decide), hk "City" (by decide), hk "CITY" (by decide),
    hk "age" (by decide), hk "Age" (by decide), hk "AGE" (by decide),
    hk "email" (by decide), hk "Email" (by decide), hk "EMAIL" (by decide),
    hk "phone" (by decide), hk "Phone" (by decide), hk "PHONE" (by decide)]

/-- Claim C6 witness: a mapping with a single unrecognized key normalizes
to the all-empty record. -/
theorem transform_record_total_idempotent_witness :
    (∀ p ∈ ([("foo", "bar")] : List (String × String)), p.1 ∉ recognizedKeys) ∧
    transform_record [("foo", "bar")] =
      [("Name", ""), ("City", ""), ("Age", ""), ("Email", ""), ("Phone", "")] :=
  ⟨by decide, transform_record_total_idempotent.2 [("foo", "bar")] (by decide)⟩

/-! ## Claims about the request handlers -/

/-- Claim C9: `add_row` is atomic on failure: a params mapping missing Name
or City yields the INVALID_PARAMS error, and one failing validation yields
the VALIDATION_ERROR error carrying the violation list as its data, and in
both cases the handler returns with the in-memory store unchanged. -/
theorem add_row_error_leaves_store_unchanged :
    ∀ (params : Candidate) (store : List Record),
      ((params.Name = none ∨ params.City = none) →
        handle_mcp_add_row params store = (.fail (-32602) 400 [], store)) ∧
      (params.Name ≠ none → params.City ≠ none → validate_data params ≠ [] →
        handle_mcp_add_row params store =
          (.fail (-32001) 400 (validate_data params), store)) := by
  intro params store
  constructor
  · intro h
    unfold handle_mcp_add_row
    rcases h with h | h <;> simp [h]
  · intro h1 h2 hv
    have e1 : params.Name.isNone = false := by
      cases hn : params.Name with
      | none => exact absurd hn h1
      | some _ => rfl
    have e2 : params.City.isNone = false := by
      cases hn : params.City with
      | none => exact absurd hn h2
      | some _ => rfl
    unfold handle_mcp_add_row
    rw [e1, e2]
    cases hval : validate_data params with
    | nil => exact absurd hval hv
    | cons e es => simp

/-- Claim C9 witness: the failing candidate from the spec's validation
example leaves an empty store empty and surfaces its violations as data. -/
theorem add_row_error_leaves_store_unchanged_witness :
    ((⟨some "A", some "London", some "200", some "bad", some "123"⟩ : Candidate).Name ≠ none ∧
      validate_data ⟨some "A", some "London", some "200", some "bad", some "123"⟩ ≠ []) ∧
    handle_mcp_add_row ⟨some "A", some "London", some "200", some "bad", some "123"⟩ [] =
      (.fail (-32001) 400
        (validate_data ⟨some "A", some "London", some "200", some "bad", some "123"⟩), []) :=
  ⟨⟨by decide, by decide⟩,
    (add_row_error_leaves_store_unchanged _ []).2 (by decide) (by decide) (by decide)⟩

lemma recordMatches_iff (params : List (String × String)) (r : Record) :
    recordMatches params r = true ↔ SpecMatch params r := by
  unfold recordMatches SpecMatch
  rw [List.all_eq_true]
  constructor
  · intro h p hp s hs
    have hb := h p hp
    rw [hs] at hb
    exact hb
  · intro h p hp
    show (match recordGet r p.1 with
          | some s => containsSub (pyLower p.2) (pyLower s)
          | none => true) = true
    cases hs : recordGet r p.1 with
    | none => rfl
    | some s => exact h p hp s hs

lemma filterMatching_eq_filter (params : List (String × String)) (l : List Record) :
    filterMatching params l = l.filter (recordMatches params) := by
  induction l with
  | nil => rfl
  | cons r rs ih =>
    simp only [filterMatching, List.filter_cons, ih]

/-- Claim C3: `search_records` fails with INVALID_PARAMS (-32602, HTTP 400)
when params carries none of Name, City, Email; otherwise a stored record
matches exactly when every supplied pair whose field exists on the record
is a case-insensitive substring hit, the matches come back in store order,
and an empty match set yields DATA_NOT_FOUND (-32002, HTTP 404) rather
than an empty success list. -/
theorem search_records_matching :
    ∀ (params : List (String × String)) (store : List Record),
      (hasSearchKey params = false →
        handle_mcp_search_records params store = .fail (-32602) 400) ∧
      (hasSearchKey params = true →
        (∀ r : Record, recordMatches params r = true ↔ SpecMatch params r) ∧
        (store.filter (recordMatches params) = [] →
          handle_mcp_search_records params store = .fail (-32002) 404) ∧
        (store.filter (recordMatches params) ≠ [] →
          handle_mcp_search_records params store =
            .ok (store.filter (recordMatches params)))) := by
  intro params store
  refine ⟨fun h => ?_, fun h =>
    ⟨fun r => recordMatches_iff params r, fun hemp => ?_, fun hne => ?_⟩⟩
  · simp [handle_mcp_search_records, h]
  · simp [handle_mcp_search_records, h, filterMatching_eq_filter, hemp]
  · have hf : (store.filter (recordMatches params)).isEmpty = false := by
      cases hl : store.filter (recordMatches params) with
      | nil => exact absurd hl hne
      | cons a as => rfl
    simp [handle_mcp_search_records, h, filterMatching_eq_filter, hf]

/-- Claim C3 witness: searching City="london" over a London record and a
Paris record returns exactly the London record. -/
theorem search_records_matching_witness :
    hasSearchKey [("City", "london")] = true ∧
    handle_mcp_search_records [("City", "london")]
        [⟨"Alice Johnson", "London", "28", "alice@example.com", "1234567890"⟩,
         ⟨"Eva Brown", "Paris", "31", "eva@example.com", "3344556677"⟩] =
      .ok [⟨"Alice Johnson", "London", "28", "alice@example.com", "1234567890"⟩] := by
  refine ⟨by decide, ?_⟩
  exact (((search_records_matching [("City", "london")]
      [⟨"Alice Johnson", "London", "28", "alice@example.com", "1234567890"⟩,
       ⟨"Eva Brown", "Paris", "31", "eva@example.com", "3344556677"⟩]).2
    (by decide)).2.2 (by decide)).trans (by decide)

/-! ## Claim about the envelope dispatcher -/

/-- Claim C5, counterexample: the parsed empty object is falsy, so the
dispatcher raises and folds it into INTERNAL_ERROR (-32603, HTTP 500)
instead of the INVALID_REQUEST (-32600, HTTP 400) the claim asserts. -/
theorem empty_envelope_counterexample :
    mcp_dispatch [] = .fail (-32603) 500 JVal.null ∧
    mcp_dispatch [] ≠ .fail (-32600) 400 JVal.null := by
  refine ⟨rfl, fun h => ?_⟩
  rw [show mcp_dispatch [] = .fail (-32603) 500 JVal.null from rfl] at h
  injection h with hc hh hi
  exact absurd hc (by decide)

/-- Claim C5 as amended: every parsed non-empty JSON object lacking at
least one of the jsonrpc protocol-version key, method, or params is
answered with INVALID_REQUEST (-32600, HTTP 400), echoing the extractable
id; the empty object is instead folded into INTERNAL_ERROR (-32603,
HTTP 500). -/
theorem mcp_dispatch_invalid_request :
    (∀ req : List (String × JVal), req ≠ [] →
      (hasKey req "jsonrpc" = false ∨ hasKey req "method" = false ∨
        hasKey req "params" = false) →
      mcp_dispatch req = .fail (-32600) 400 (getJ req "id")) ∧
    mcp_dispatch [] = .fail (-32603) 500 JVal.null := by
  refine ⟨fun req hne hmiss => ?_, rfl⟩
  have h0 : req.isEmpty = false := by
    cases req with
    | nil => exact absurd rfl hne
    | cons a as => rfl
  have h1 : (["jsonrpc", "method", "params"].all fun k => hasKey req k) = false := by
    simp only [List.all_cons, List.all_nil, Bool.and_true]
    rcases hmiss with h | h | h <;> simp [h]
  simp [mcp_dispatch, h0, h1]

/-- Claim C5 witness: an envelope with only an id and a method is missing
jsonrpc and params, and the INVALID_REQUEST response echoes its id. -/
theorem mcp_dispatch_invalid_request_witness :
    ([(("id" : String), JVal.num 7), ("method", JVal.str "get_data")] ≠
        ([] : List (String × JVal)) ∧
      hasKey [(("id" : String), JVal.num 7), ("method", JVal.str "get_data")] "jsonrpc" = false) ∧
    mcp_dispatch [(("id" : String), JVal.num 7), ("method", JVal.str "get_data")] =
      .fail (-32600) 400 (JVal.num 7) :=
  ⟨⟨by simp, by decide⟩,
    mcp_dispatch_invalid_request.1 _ (by simp) (Or.inl (by decide))⟩

/-! ## Claim about CSV export -/

lemma join_cons (a : String) (as : List String) :
    String.join (a :: as) = a ++ String.join as := by
  rw [String.join_eq, String.join_eq]; rfl

lemma foldl_row_join (l : List Record) (acc : String) :
    l.foldl (fun acc r => acc ++ mcpCsvRow r ++ "\n") acc =
      acc ++ String.join (l.map fun r => mcpCsvRow r ++ "\n") := by
  induction l generalizing acc with
  | nil =>
    rw [List.foldl_nil, List.map_nil, show String.join [] = "" from rfl,
      String.append_empty]
  | cons r rs ih =>
    rw [List.foldl_cons, ih, List.map_cons, join_cons]
    simp only [String.append_assoc]

lemma intercalate_go_foldl (s : String) (xs : List String) (a : String) :
    String.intercalate.go a s xs = xs.foldl (fun acc x => acc ++ s ++ x) a := by
  induction xs generalizing a with
  | nil => rfl
  | cons x xt ih => rw [String.intercalate.go, List.foldl_cons, ih]

lemma mcp_csv_eq_spec (records : List Record) :
    mcp_csv_export records = specEnvelopeCsv records := by
  cases records with
  | nil => rfl
  | cons r rs =>
    unfold mcp_csv_export specEnvelopeCsv
    rw [show ((r :: rs) : List Record).isEmpty = false from rfl, if_neg (by decide)]
    rw [foldl_row_join]
    simp only [List.map_cons, List.map_map, join_cons, String.append_assoc]
    rfl

lemma rest_csv_eq_spec (records : List Record) :
    rest_csv_export records = specRestCsv records := by
  cases records with
  | nil => rfl
  | cons r rs =>
    unfold rest_csv_export specRestCsv
    rw [show ((r :: rs) : List Record).isEmpty = false from rfl, if_neg (by decide)]
    show String.intercalate.go _ "\n" _ = _
    rw [intercalate_go_foldl, List.foldl_map]
    rfl

/-- Claim C1, counterexample: on the same single record the envelope
exporter and the REST exporter disagree — the envelope CSV replaces the
embedded comma with a semicolon and newline-terminates each row, while the
REST CSV wraps every field in double quotes, keeps the comma, and has no
trailing newline. -/
theorem csv_export_not_identical_counterexample :
    mcp_csv_export [⟨"Alice", "Paris, France", "30", "a@b.com", "12345678"⟩] =
      "Name,City,Age,Email,Phone\nAlice,Paris; France,30,a@b.com,12345678\n" ∧
    rest_csv_export [⟨"Alice", "Paris, France", "30", "a@b.com", "12345678"⟩] =
      "Name,City,Age,Email,Phone\n\"Alice\",\"Paris, France\",\"30\",\"a@b.com\",\"12345678\"" ∧
    mcp_csv_export [⟨"Alice", "Paris, France", "30", "a@b.com", "12345678"⟩] ≠
      rest_csv_export [⟨"Alice", "Paris, France", "30", "a@b.com", "12345678"⟩] := by
  refine ⟨by decide, by decide, by decide⟩

/-- Claim C1 as amended: the envelope `export_data` handler renders the
fixed header then one newline-terminated row per record with comma→';'
value replacement as the only escaping, while the REST `/export/csv`
endpoint instead wraps each of the five field values in double quotes with
no comma replacement and joins its lines by newlines without a trailing
newline. -/
theorem csv_export_shapes :
    ∀ records : List Record,
      handle_mcp_export_data (some "csv") records =
        ⟨"csv", .csv (specEnvelopeCsv records), records.length⟩ ∧
      export_data "csv" records = .csv (specRestCsv records) := by
  intro records
  constructor
  · have hc : pyLower ((some "csv").getD "json") = "csv" := rfl
    unfold handle_mcp_export_data
    rw [if_pos hc, mcp_csv_eq_spec]
  · have hc : pyLower "csv" = "csv" := rfl
    unfold export_data
    rw [if_pos hc, rest_csv_eq_spec]

/-! ## Claims about analytics and data quality -/

lemma isEmpty_false_of_ne {α : Type} {l : List α} (h : l ≠ []) : l.isEmpty = false := by
  cases l with
  | nil => exact absurd rfl h
  | cons a as => rfl

lemma extractAges_eq_specAges (data : List Record) : extractAges data = specAges data := by
  unfold extractAges specAges
  congr 1
  funext r
  by_cases h : r.Age.toList = []
  · simp [h]
  · by_cases hd : ∀ c ∈ r.Age.toList, c.isDigit = true
    · simp [h, hd, List.all_eq_true, List.isEmpty_iff]
    · simp [h, hd, List.all_eq_true, List.isEmpty_iff]

/-- Claim C7: whenever some record carries a non-empty all-digit Age, the
analytics age statistics are computed over exactly those ages, with the
median taken at index `length / 2` of the ascending sort (the upper median,
never interpolated); on ages 20, 30, 40 the median is 30, and on ages
20, 30, 40, 50 it is 40. -/
theorem analytics_upper_median :
    (∀ data : List Record, specAges data ≠ [] →
      extractAges data = specAges data ∧
      analyticsAgeStats (generate_analytics data) = age_statistics data ∧
      ∃ st : AgeStats, age_statistics data = some st ∧
        st.median = ((specAges data).insertionSort fun a b => a ≤ b).getD
          ((specAges data).length / 2) 0) ∧
    (age_statistics
        [⟨"A B", "Town", "20", "a@b.com", "12345678"⟩,
         ⟨"A B", "Town", "30", "a@b.com", "12345678"⟩,
         ⟨"A B", "Town", "40", "a@b.com", "12345678"⟩]).map AgeStats.median = some 30 ∧
    (age_statistics
        [⟨"A B", "Town", "20", "a@b.com", "12345678"⟩,
         ⟨"A B", "Town", "30", "a@b.com", "12345678"⟩,
         ⟨"A B", "Town", "40", "a@b.com", "12345678"⟩,
         ⟨"A B", "Town", "50", "a@b.com", "12345678"⟩]).map AgeStats.median = some 40 := by
  refine ⟨fun data h => ?_, by decide, by decide⟩
  have he := extractAges_eq_specAges data
  have hne : extractAges data ≠ [] := by rw [he]; exact h
  have hdata : data ≠ [] := by
    intro hd
    rw [hd] at h
    exact h rfl
  refine ⟨he, ?_, ?_⟩
  · unfold generate_analytics
    rw [if_neg (by simp [isEmpty_false_of_ne hdata])]
    rfl
  · unfold age_statistics
    rw [if_neg (by simp [isEmpty_false_of_ne hne])]
    refine ⟨_, rfl, ?_⟩
    simp only [he]

/-- Claim C7 witness: the four-record fixture has usable ages, and its
statistics place the median at sorted index 2, the value 40. -/
theorem analytics_upper_median_witness :
    specAges
        [⟨"A B", "Town", "20", "a@b.com", "12345678"⟩,
         ⟨"A B", "Town", "30", "a@b.com", "12345678"⟩,
         ⟨"A B", "Town", "40", "a@b.com", "12345678"⟩,
         ⟨"A B", "Town", "50", "a@b.com", "12345678"⟩] ≠ [] ∧
    (extractAges
        [⟨"A B", "Town", "20", "a@b.com", "12345678"⟩,
         ⟨"A B", "Town", "30", "a@b.com", "12345678"⟩,
         ⟨"A B", "Town", "40", "a@b.com", "12345678"⟩,
         ⟨"A B", "Town", "50", "a@b.com", "12345678"⟩] =
      specAges
        [⟨"A B", "Town", "20", "a@b.com", "12345678"⟩,
         ⟨"A B", "Town", "30", "a@b.com", "12345678"⟩,
         ⟨"A B", "Town", "40", "a@b.com", "12345678"⟩,
         ⟨"A B", "Town", "50", "a@b.com", "12345678"⟩] ∧
      analyticsAgeStats (generate_analytics
        [⟨"A B", "Town", "20", "a@b.com", "12345678"⟩,
         ⟨"A B", "Town", "30", "a@b.com", "12345678"⟩,
         ⟨"A B", "Town", "40", "a@b.com", "12345678"⟩,
         ⟨"A B", "Town", "50", "a@b.com", "12345678"⟩]) =
        age_statistics
          [⟨"A B", "Town", "20", "a@b.com", "12345678"⟩,
           ⟨"A B", "Town", "30", "a@b.com", "12345678"⟩,
           ⟨"A B", "Town", "40", "a@b.com", "12345678"⟩,
           ⟨"A B", "Town", "50", "a@b.com", "12345678"⟩] ∧
      ∃ st : AgeStats,
        age_statistics
          [⟨"A B", "Town", "20", "a@b.com", "12345678"⟩,
           ⟨"A B", "Town", "30", "a@b.com", "12345678"⟩,
           ⟨"A B", "Town", "40", "a@b.com", "12345678"⟩,
           ⟨"A B", "Town", "50", "a@b.com", "12345678"⟩] = some st ∧
        st.median =
          ((specAges
              [⟨"A B", "Town", "20", "a@b.com", "12345678"⟩,
               ⟨"A B", "Town", "30", "a@b.com", "12345678"⟩,
               ⟨"A B", "Town", "40", "a@b.com", "12345678"⟩,
               ⟨"A B", "Town", "50", "a@b.com", "12345678"⟩]).insertionSort fun a b => a ≤ b).getD
            ((specAges
              [⟨"A B", "Town", "20", "a@b.com", "12345678"⟩,
               ⟨"A B", "Town", "30", "a@b.com", "12345678"⟩,
               ⟨"A B", "Town", "40", "a@b.com", "12345678"⟩,
               ⟨"A B", "Town", "50", "a@b.com", "12345678"⟩]).length / 2) 0) :=
  ⟨by decide, analytics_upper_median.1 _ (by decide)⟩

lemma present_iff_trim (v : String) :
    (!(v = "") && !(pyStrip v = "")) = !(pyStrip v = "") := by
  by_cases h : v = ""
  · subst h; rfl
  · simp [h]

lemma completeCount_eq_spec (data : List Record) :
    completeCount data = specCompleteCount data := by
  unfold completeCount specCompleteCount
  rw [List.countP_eq_length_filter]
  congr 1
  apply List.filter_congr
  intro r _
  show (canonicalFields.all fun f => fieldPresent r f) = _
  simp only [canonicalFields, List.all_cons, List.all_nil, Bool.and_true]
  rw [show fieldPresent r "Name" = (!(r.Name = "") && !(pyStrip r.Name = "")) from rfl,
    show fieldPresent r "City" = (!(r.City = "") && !(pyStrip r.City = "")) from rfl,
    show fieldPresent r "Age" = (!(r.Age = "") && !(pyStrip r.Age = "")) from rfl,
    show fieldPresent r "Email" = (!(r.Email = "") && !(pyStrip r.Email = "")) from rfl,
    show fieldPresent r "Phone" = (!(r.Phone = "") && !(pyStrip r.Phone = "")) from rfl,
    present_iff_trim, present_iff_trim, present_iff_trim, present_iff_trim,
    present_iff_trim]
  simp [Bool.and_assoc]

/-- Claim C8: on an empty record sequence the quality scorer returns
exactly overall score 0 with the single issue "No data available", with no
division performed; on n records the overall score is
100 * complete / n, complete counting records whose five fields all trim
non-empty, rounded to one decimal. -/
theorem quality_score_formula :
    assess_data_quality [] = .noData 0 ["No data available"] ∧
    ∀ data : List Record, data ≠ [] →
      overall_score_of (assess_data_quality data) =
        pyRound1 (100 * (specCompleteCount data : ℚ) / data.length) := by
  refine ⟨rfl, fun data h => ?_⟩
  unfold assess_data_quality
  rw [if_neg (by simp [isEmpty_false_of_ne h])]
  show pyRound1 ((completeCount data : ℚ) / data.length * 100) = _
  rw [completeCount_eq_spec]
  congr 1
  ring

/-- Claim C8 witness: a single fully-populated record scores
100 * 1 / 1 rounded to one decimal. -/
theorem quality_score_formula_witness :
    ([⟨"Alice", "Paris", "30", "a@b.com", "12345678"⟩] ≠ ([] : List Record)) ∧
    overall_score_of (assess_data_quality [⟨"Alice", "Paris", "30", "a@b.com", "12345678"⟩]) =
      pyRound1 (100 *
        (specCompleteCount [⟨"Alice", "Paris", "30", "a@b.com", "12345678"⟩] : ℚ) /
        ([⟨"Alice", "Paris", "30", "a@b.com", "12345678"⟩] : List Record).length) :=
  ⟨by decide, quality_score_formula.2 _ (by decide)⟩

end MCPServer
